import Mathlib

/-!
Formal model of the OpenAI-compatible multi-backend aggregation and routing
layer in `backend/apps/openai/main.py`.

The Python handlers are embedded as pure Lean functions.  Process-wide mutable
state (`app.state`) becomes an explicit `AppState` record threaded through the
functions; network I/O becomes oracle parameters (`fetch`, `http_get`,
`upstream`) whose outcome is `Option`-valued (`none` = the library call raised);
Python exceptions become an `Except PyErr` result; the on-disk speech cache
becomes an explicit `FS` record.  Python library primitives (`json.loads`,
`hashlib.sha256`) are taken as function parameters, since their implementations
live outside this repository.
-/

/-- Python `needle in hay` prefix helper on character lists. -/
def charsStart : List Char → List Char → Bool
  | [], _ => true
  | _ :: _, [] => false
  | n :: ns, h :: hs => n == h && charsStart ns hs

/-- Python substring membership `needle in hay` on character lists. -/
def charsContain (needle : List Char) : List Char → Bool
  | [] => needle.isEmpty
  | h :: hs => charsStart needle (h :: hs) || charsContain needle hs

/-- Python `needle in hay` for strings (substring containment). -/
def strContains (hay needle : String) : Bool :=
  charsContain needle.data hay.data

/-- JSON values, as produced by `json.loads`.  Numeric values are modelled as
integers (the only numeral the embedded code manipulates is `4000`). -/
inductive Json where
  | null
  | bool (b : Bool)
  | num (n : Int)
  | str (s : String)
  | arr (elems : List Json)
  | obj (fields : List (String × Json))

/-- A parsed JSON object body: the top-level dict `json.loads` yields on the
request bodies the embedded endpoints process.  Keys are unique in a Python
dict; the association list keeps insertion order (dict insertion order). -/
abbrev JsonObj := List (String × Json)

/-- Python `d.get(k)`: the value at key `k`, or `None` (here `none`). -/
def objGet (o : JsonObj) (k : String) : Option Json :=
  (o.find? (fun p => p.1 == k)).map (fun p => p.2)

/-- Python `k in d` for a dict. -/
def objHas (o : JsonObj) (k : String) : Bool :=
  o.any (fun p => p.1 == k)

/-- Python `del d[k]` (on a dict with unique keys). -/
def objDel (o : JsonObj) (k : String) : JsonObj :=
  o.filter (fun p => p.1 != k)

/-- Python `d[k] = v` for a key not already present: dicts append new keys at
the end of the insertion order. -/
def objSet (o : JsonObj) (k : String) (v : Json) : JsonObj :=
  o ++ [(k, v)]

/-- A model entry as reported by a backend's `/models` endpoint: a JSON object
with an `"id"` field.  The remaining attributes are opaque to every operation
embedded here, so only the inspected field is carried. -/
structure RawModel where
  id : String
  deriving DecidableEq, Repr

/-- A merged model entry: the backend's entry tagged with `urlIdx`, the owning
backend's index (`{**model, "urlIdx": idx}`). -/
structure TaggedModel where
  id : String
  urlIdx : Nat
  deriving DecidableEq, Repr

/-- Python exceptions the embedded code can raise.  `httpError s` is a raised
`HTTPException(status_code = s)`; `keyError` / `indexError` are uncaught
`KeyError` / `IndexError` escaping the handler. -/
inductive PyErr where
  | keyError
  | indexError
  | httpError (status : Nat)
  deriving DecidableEq, Repr

/-- The process-wide mutable registry and catalog held on `app.state`.
`MODELS` is the dict `{model["id"]: model}` represented by the merged list it
was built from, in insertion order (see `modelsCatalogGet` for the
last-write-wins lookup). -/
structure AppState where
  OPENAI_API_BASE_URLS : List String
  OPENAI_API_KEYS : List String
  MODELS : List TaggedModel
  deriving DecidableEq, Repr

/-- One backend's contribution in `merge_models_lists`: the list comprehension
`[{**model, "urlIdx": idx} for model in models if "api.openai.com" not in
app.state.OPENAI_API_BASE_URLS[idx] or "gpt" in model["id"]]`.  The condition
is evaluated per element, so `base_urls[idx]` is only consulted (and can only
raise `IndexError`) when `models` is non-empty. -/
def keepFiltered (base_urls : List String) (idx : Nat) : List RawModel → Except PyErr (List TaggedModel)
  | [] => .ok []
  | m :: ms =>
    match base_urls[idx]? with
    | none => .error .indexError
    | some url =>
      match keepFiltered base_urls idx ms with
      | .error e => .error e
      | .ok rest =>
        .ok (if !strContains url "api.openai.com" || strContains m.id "gpt"
             then ⟨m.id, idx⟩ :: rest else rest)

/-- The `for idx, models in enumerate(model_lists)` loop of
`merge_models_lists`.  A `none` entry (failed fetch) is skipped by the
`models is not None` guard.  The source also skips a list containing the
string `"error"` as an element; model lists hold model objects, never bare
strings, so that membership test is identically false and is not represented
on the `RawModel` element type. -/
def mergeModelsAux (base_urls : List String) : Nat → List (Option (List RawModel)) → Except PyErr (List TaggedModel)
  | _, [] => .ok []
  | idx, none :: rest => mergeModelsAux base_urls (idx + 1) rest
  | idx, some ms :: rest =>
    match keepFiltered base_urls idx ms with
    | .error e => .error e
    | .ok kept =>
      match mergeModelsAux base_urls (idx + 1) rest with
      | .error e => .error e
      | .ok tail => .ok (kept ++ tail)

/-- `merge_models_lists(model_lists)` reading `app.state.OPENAI_API_BASE_URLS`. -/
def merge_models_lists (base_urls : List String) (model_lists : List (Option (List RawModel))) :
    Except PyErr (List TaggedModel) :=
  mergeModelsAux base_urls 0 model_lists

/-- Modelled from the spec's words (§4.3 / §8 of the design document): an
entry is dropped exactly when its owning backend's base URL contains
`"api.openai.com"` and its id does not contain `"gpt"`; every kept entry is
tagged with its backend index; backends contribute in registry order. -/
def mergeModelsSpecAux (base_urls : List String) : Nat → List (Option (List RawModel)) → List TaggedModel
  | _, [] => []
  | idx, none :: rest => mergeModelsSpecAux base_urls (idx + 1) rest
  | idx, some ms :: rest =>
    (ms.filter (fun m =>
        !(strContains (base_urls[idx]?.getD "") "api.openai.com" && !strContains m.id "gpt"))).map
      (fun m => ⟨m.id, idx⟩)
      ++ mergeModelsSpecAux base_urls (idx + 1) rest

/-- Spec-side merge, compared against `merge_models_lists`. -/
def mergeModelsSpec (base_urls : List String) (model_lists : List (Option (List RawModel))) :
    List TaggedModel :=
  mergeModelsSpecAux base_urls 0 model_lists

/-- A pending fetch built by `get_all_models` / `update_openai_urls`:
`fetch_url(f"{url}/models", OPENAI_API_KEYS[idx])`. -/
structure FetchCall where
  url : String
  key : String
  deriving DecidableEq, Repr

/-- The JSON value a backend's `/models` endpoint returned, at the granularity
the response-shaping lambda in `get_all_models` distinguishes: a (truthy) dict
carrying a `"data"` list, a bare JSON list, or anything else (a dict without
`"data"`, an error object, a scalar...). -/
inductive FetchResult where
  | objWithData (data : List RawModel)
  | listResp (data : List RawModel)
  | other
  deriving DecidableEq, Repr

/-- The lambda mapped over the gathered responses in `get_all_models`:
`response["data"] if (response and "data" in response) else (response if
isinstance(response, list) else None)`.  A failed fetch (`fetch_url` returned
`None`) maps to `None`. -/
def mapResponse : Option FetchResult → Option (List RawModel)
  | some (.objWithData d) => some d
  | some (.listResp d) => some d
  | some .other => none
  | none => none

/-- Building the task list `[fetch_url(f"{url}/models", OPENAI_API_KEYS[idx])
for idx, url in enumerate(OPENAI_API_BASE_URLS)]`: the key lookup
`OPENAI_API_KEYS[idx]` is evaluated while building the list, before any fetch
runs, and raises `IndexError` when the key registry is shorter. -/
def buildCallsAux (keys : List String) : Nat → List String → Except PyErr (List FetchCall)
  | _, [] => .ok []
  | idx, url :: rest =>
    match keys[idx]? with
    | none => .error .indexError
    | some k =>
      match buildCallsAux keys (idx + 1) rest with
      | .error e => .error e
      | .ok tail => .ok (⟨url ++ "/models", k⟩ :: tail)

/-- The fetch targets of one catalog refresh. -/
def buildCalls (urls keys : List String) : Except PyErr (List FetchCall) :=
  buildCallsAux keys 0 urls

/-- The `"data"`-wrapped result dict `get_all_models` builds. -/
structure ModelsResp where
  data : List TaggedModel
  deriving DecidableEq, Repr

/-- `get_all_models()`.  `fetch` is the network oracle standing for
`fetch_url`; `none` is a failed/malformed fetch.  The result carries the new
state, the handler's return value, and the list of fetches performed.

When the key registry is exactly `[""]`, the source assigns
`models = {"data": []}` but that branch never reaches the `return models`
statement (it is indented inside the `else` block), so the function returns
`None` and leaves `app.state.MODELS` untouched. -/
def get_all_models (st : AppState) (fetch : FetchCall → Option FetchResult) :
    Except PyErr (AppState × Option ModelsResp × List FetchCall) :=
  if st.OPENAI_API_KEYS.length == 1 && st.OPENAI_API_KEYS.getD 0 "" == "" then
    .ok (st, none, [])
  else
    match buildCalls st.OPENAI_API_BASE_URLS st.OPENAI_API_KEYS with
    | .error e => .error e
    | .ok calls =>
      match merge_models_lists st.OPENAI_API_BASE_URLS
          ((calls.map fetch).map mapResponse) with
      | .error e => .error e
      | .ok merged => .ok ({ st with MODELS := merged }, some ⟨merged⟩, calls)

/-- `POST /urls/update`: `await get_all_models()` first (against the state as
it is, i.e. the pre-swap urls and keys), then swap `OPENAI_API_BASE_URLS` to
the submitted list. -/
def update_openai_urls (st : AppState) (fetch : FetchCall → Option FetchResult)
    (urls : List String) : Except PyErr (AppState × List FetchCall) :=
  match get_all_models st fetch with
  | .error e => .error e
  | .ok (st1, _models, calls) => .ok ({ st1 with OPENAI_API_BASE_URLS := urls }, calls)

/-- `POST /keys/update`: assigns `OPENAI_API_KEYS` and returns; no network
primitive appears in the handler body, so the fetch log is empty. -/
def update_openai_key (st : AppState) (keys : List String) : AppState × List FetchCall :=
  ({ st with OPENAI_API_KEYS := keys }, [])

/-- Lookup in the dict `{model["id"]: model for model in models["data"]}`:
built in insertion order, a later entry with the same id overwrites an earlier
one, so the lookup returns the last matching element of the merged list. -/
def modelsCatalogGet (models : List TaggedModel) (k : String) : Option TaggedModel :=
  models.reverse.find? (fun t => t.id == k)

/-- `app.state.MODELS[body.get("model")]`: the dict's keys are model-id
strings, so a missing `"model"` field (`None`) or a non-string value raises
`KeyError`, as does an id absent from the catalog. -/
def modelsGet (models : List TaggedModel) : Option Json → Except PyErr TaggedModel
  | some (Json.str m) =>
    match modelsCatalogGet models m with
    | some t => .ok t
    | none => .error .keyError
  | _ => .error .keyError

/-- Python `body.get("model") == "gpt-4-vision-preview"`. -/
def isVisionModel : Option Json → Bool
  | some (Json.str s) => s == "gpt-4-vision-preview"
  | _ => false

/-- The non-assistant body fixups, in source order: inject
`max_tokens = 4000` for `gpt-4-vision-preview` when absent, then delete
`num_ctx` when present. -/
def fixupBody (parsed : JsonObj) : JsonObj :=
  let b1 :=
    if isVisionModel (objGet parsed "model") && !objHas parsed "max_tokens"
    then objSet parsed "max_tokens" (Json.num 4000)
    else parsed
  if objHas b1 "num_ctx" then objDel b1 "num_ctx" else b1

/-- The assistant-mode body shaping: `for key in ["model", "max_tokens"]: if
key in body: del body[key]`. -/
def stripAssistantKeys (parsed : JsonObj) : JsonObj :=
  objDel (objDel parsed "model") "max_tokens"

/-- What the proxy forwards as `data=`: either the raw inbound string (when
JSON parsing failed and the body was left as decoded) or a re-serialized
(`json.dumps`) object. -/
inductive ProxyBody where
  | raw (s : String)
  | jsonBody (j : Json)

/-- The outbound request the proxy issues: target URL, `Authorization`
header value, and body.  The HTTP method is passed through verbatim from the
inbound request and is not modelled. -/
structure ForwardCall where
  url : String
  authorization : String
  body : ProxyBody

/-- The generic proxy handler for `/{path}`, up to the point the outbound
request is issued.  `assistant_id` is the `OPENAI_ASSISTANT_ID` configuration
value; `json_loads` stands for `json.loads` restricted to the top-level JSON
object results the routed endpoints receive (`none` = `json.JSONDecodeError`).
The inbound body is the UTF-8 decoded request body. -/
def proxy (assistant_id : String) (st : AppState) (path : String)
    (json_loads : String → Option JsonObj) (rawBody : String) :
    Except PyErr ForwardCall :=
  let step : Except PyErr (Nat × ProxyBody) :=
    if assistant_id == "" then
      match json_loads rawBody with
      | none => .ok (0, .raw rawBody)
      | some parsed =>
        match modelsGet st.MODELS (objGet parsed "model") with
        | .error e => .error e
        | .ok t => .ok (t.urlIdx, .jsonBody (Json.obj (fixupBody parsed)))
    else
      match json_loads rawBody with
      | none => .ok (0, .raw rawBody)
      | some parsed => .ok (0, .jsonBody (Json.obj (stripAssistantKeys parsed)))
  match step with
  | .error e => .error e
  | .ok (idx, fbody) =>
    match st.OPENAI_API_BASE_URLS[idx]? with
    | none => .error .indexError
    | some url =>
      match st.OPENAI_API_KEYS[idx]? with
      | none => .error .indexError
      | some key =>
        if key == "" then .error (.httpError 401)
        else .ok ⟨url ++ "/" ++ path, "Bearer " ++ key, fbody⟩

/-- A backend's raw `/models` response body as the indexed listing handler
sees it: a dict with a `"data"` list of (untagged) model entries; other
response fields are opaque and not inspected. -/
structure BackendModelsResp where
  data : List RawModel
  deriving DecidableEq, Repr

/-- Python list indexing `l[i]` with an `int` index: valid when
`-len(l) <= i < len(l)`, a negative index counting from the end; anything
else raises `IndexError`. -/
def pyIndex (l : List String) (i : Int) : Except PyErr String :=
  let j : Int := if i < 0 then (l.length : Int) + i else i
  if 0 ≤ j then
    match l[j.toNat]? with
    | some x => .ok x
    | none => .error .indexError
  else .error .indexError

/-- The indexed branch of `GET /models/{url_idx}`: `url =
app.state.OPENAI_API_BASE_URLS[url_idx]` (no bounds check), then a single
unauthenticated GET to `{url}/models`; for a base URL containing
`"api.openai.com"` the returned `"data"` list is filtered to ids containing
`"gpt"`.  `http_get` is the network oracle (`none` = connection failure,
non-2xx, or unparseable JSON, normalized by the handler's `except` block to a
500-class `HTTPException`; the upstream-status passthrough detail is not
modelled).  The second component logs the URLs actually requested. -/
def get_models_indexed (st : AppState) (i : Int)
    (http_get : String → Option BackendModelsResp) :
    Except PyErr BackendModelsResp × List String :=
  match pyIndex st.OPENAI_API_BASE_URLS i with
  | .error e => (.error e, [])
  | .ok url =>
    match http_get (url ++ "/models") with
    | none => (.error (.httpError 500), [url ++ "/models"])
    | some resp =>
      if strContains url "api.openai.com" then
        (.ok ⟨resp.data.filter (fun m => strContains m.id "gpt")⟩, [url ++ "/models"])
      else (.ok resp, [url ++ "/models"])

/-- The indexed branch of `GET /assistants/{url_idx}`: same unchecked index
access, a single unauthenticated GET to `{url}/assistants`, response returned
verbatim (no filtering). -/
def get_assistants_indexed (st : AppState) (i : Int) (http_get : String → Option Json) :
    Except PyErr Json × List String :=
  match pyIndex st.OPENAI_API_BASE_URLS i with
  | .error e => (.error e, [])
  | .ok url =>
    match http_get (url ++ "/assistants") with
    | none => (.error (.httpError 500), [url ++ "/assistants"])
    | some resp => (.ok resp, [url ++ "/assistants"])

/-- Lookup a file by name in a directory listing. -/
def lookupFile {α : Type} (files : List (String × α)) (k : String) : Option α :=
  (files.find? (fun p => p.1 == k)).map (fun p => p.2)

/-- Write (create or overwrite) a file. -/
def writeFile {α : Type} (files : List (String × α)) (k : String) (v : α) :
    List (String × α) :=
  (files.filter (fun p => p.1 != k)) ++ [(k, v)]

/-- The speech cache directory `CACHE_DIR/audio/speech/`: `<hash>.mp3` audio
artifacts and `<hash>.json` audit copies of the request body. -/
structure FS where
  mp3 : List (String × List Nat)
  jsonFiles : List (String × JsonObj)

/-- `POST /audio/speech`.  `sha256` stands for `hashlib.sha256(body).hexdigest()`;
`upstream` for the `requests.post` to `{base_url}/audio/speech` (`none` =
connection error or non-2xx raised by `raise_for_status`, in which case no
file has been written).  Audio content is a byte list.  The result carries
the response, the cache state after the call, and the number of upstream
requests issued.

Source order: locate `"https://api.openai.com/v1"` in the URL registry
(`ValueError` → 401), hash the body, return the cached artifact if present
(no network), otherwise build headers (`OPENAI_API_KEYS[idx]`, an uncaught
`IndexError` if the key registry is shorter), call upstream, stream the audio
to `<hash>.mp3`, then `json.dump(json.loads(body))` to `<hash>.json` — if the
body is not valid JSON this raises after the audio artifact is already on
disk, and the `except` block re-raises an `HTTPException` carrying the
(successful) upstream status code. -/
def speech (st : AppState) (fs : FS) (sha256 : String → String)
    (json_loads : String → Option JsonObj)
    (upstream : String → String → Option (List Nat)) (body : String) :
    Except PyErr (List Nat) × FS × Nat :=
  match st.OPENAI_API_BASE_URLS.findIdx? (fun u => u == "https://api.openai.com/v1") with
  | none => (.error (.httpError 401), fs, 0)
  | some idx =>
    let name := sha256 body
    match lookupFile fs.mp3 name with
    | some audio => (.ok audio, fs, 0)
    | none =>
      match st.OPENAI_API_KEYS[idx]? with
      | none => (.error .indexError, fs, 0)
      | some _key =>
        match upstream (st.OPENAI_API_BASE_URLS.getD idx "" ++ "/audio/speech") body with
        | none => (.error (.httpError 500), fs, 1)
        | some audio =>
          let fs1 : FS := { fs with mp3 := writeFile fs.mp3 name audio }
          match json_loads body with
          | none => (.error (.httpError 200), fs1, 1)
          | some parsed =>
            (.ok audio, { fs1 with jsonFiles := writeFile fs1.jsonFiles name parsed }, 1)

theorem keepFiltered_eq (urls : List String) (idx : Nat) (u : String)
    (hu : urls[idx]? = some u) :
    ∀ ms : List RawModel,
      keepFiltered urls idx ms =
        .ok ((ms.filter (fun m =>
            !(strContains u "api.openai.com" && !strContains m.id "gpt"))).map
          (fun m => ⟨m.id, idx⟩))
  | [] => rfl
  | m :: ms => by
    rw [keepFiltered, hu, keepFiltered_eq urls idx u hu ms]
    rcases h1 : strContains u "api.openai.com" <;>
      rcases h2 : strContains m.id "gpt" <;>
      simp [List.filter, h1, h2]

theorem mergeAux_eq_spec (urls : List String) :
    ∀ (lists : List (Option (List RawModel))) (idx : Nat),
      idx + lists.length ≤ urls.length →
      mergeModelsAux urls idx lists = .ok (mergeModelsSpecAux urls idx lists)
  | [], _, _ => rfl
  | none :: rest, idx, h => by
    rw [mergeModelsAux, mergeModelsSpecAux]
    exact mergeAux_eq_spec urls rest (idx + 1) (by simpa [Nat.add_right_comm] using h)
  | some ms :: rest, idx, h => by
    have hidx : idx < urls.length := by simp at h; omega
    have hu : urls[idx]? = some urls[idx] := List.getElem?_eq_getElem hidx
    rw [mergeModelsAux, mergeModelsSpecAux, keepFiltered_eq urls idx urls[idx] hu ms,
      mergeAux_eq_spec urls rest (idx + 1) (by simp at h ⊢; omega), hu]
    rfl

theorem specAux_mem_gpt (urls : List String) :
    ∀ (lists : List (Option (List RawModel))) (idx : Nat) (e : TaggedModel),
      e ∈ mergeModelsSpecAux urls idx lists →
      strContains (urls[e.urlIdx]?.getD "") "api.openai.com" = true →
      strContains e.id "gpt" = true
  | [], _, _, h, _ => by simp [mergeModelsSpecAux] at h
  | none :: rest, idx, e, h, hc =>
    specAux_mem_gpt urls rest (idx + 1) e (by simpa [mergeModelsSpecAux] using h) hc
  | some ms :: rest, idx, e, h, hc => by
    rw [mergeModelsSpecAux] at h
    rcases List.mem_append.mp h with h1 | h2
    · rcases List.mem_map.mp h1 with ⟨m, hm, rfl⟩
      have := List.of_mem_filter hm
      simp only at hc
      simp [hc] at this
      exact this
    · exact specAux_mem_gpt urls rest (idx + 1) e h2 hc

theorem mergeAux_set_empty (urls : List String) :
    ∀ (lists : List (Option (List RawModel))) (idx k : Nat),
      lists[k]? = some none →
      mergeModelsAux urls idx lists = mergeModelsAux urls idx (lists.set k (some []))
  | [], _, k, h => by simp at h
  | x :: rest, idx, 0, h => by
    simp at h
    subst h
    rw [List.set_cons_zero, mergeModelsAux, mergeModelsAux]
    show _ = match mergeModelsAux urls (idx + 1) rest with
      | .error e => .error e
      | .ok tail => .ok ([] ++ tail)
    rcases mergeModelsAux urls (idx + 1) rest <;> simp
  | x :: rest, idx, k + 1, h => by
    simp at h
    rw [List.set_cons_succ]
    rcases x with _ | ms
    · rw [mergeModelsAux, mergeModelsAux]
      exact mergeAux_set_empty urls rest (idx + 1) k h
    · rw [mergeModelsAux, mergeModelsAux,
        mergeAux_set_empty urls rest (idx + 1) k h]

/-- Claim C1: for every registry of base URLs and every list of per-backend
model responses (one per backend), the merge equals the spec-side merge that
drops an entry exactly when its backend's base URL contains
`"api.openai.com"` and its id does not contain `"gpt"`, keeping all other
entries; consequently every merged entry owned by a backend whose base URL
contains `"api.openai.com"` has `"gpt"` in its id. -/
theorem merge_filter_matches_spec (base_urls : List String)
    (model_lists : List (Option (List RawModel)))
    (h : model_lists.length ≤ base_urls.length) :
    merge_models_lists base_urls model_lists = .ok (mergeModelsSpec base_urls model_lists) ∧
    ∀ e ∈ mergeModelsSpec base_urls model_lists,
      strContains (base_urls[e.urlIdx]?.getD "") "api.openai.com" = true →
      strContains e.id "gpt" = true :=
  ⟨mergeAux_eq_spec base_urls model_lists 0 (by omega),
   fun e he => specAux_mem_gpt base_urls model_lists 0 e he⟩

theorem merge_filter_matches_spec_witness :
    ([some [RawModel.mk "gpt-4", RawModel.mk "whisper-1"], some [RawModel.mk "llama-3"]].length ≤
      (["https://api.openai.com/v1", "http://local:8080/v1"] : List String).length) ∧
    (merge_models_lists ["https://api.openai.com/v1", "http://local:8080/v1"]
        [some [RawModel.mk "gpt-4", RawModel.mk "whisper-1"], some [RawModel.mk "llama-3"]] =
      .ok (mergeModelsSpec ["https://api.openai.com/v1", "http://local:8080/v1"]
        [some [RawModel.mk "gpt-4", RawModel.mk "whisper-1"], some [RawModel.mk "llama-3"]]) ∧
     ∀ e ∈ mergeModelsSpec ["https://api.openai.com/v1", "http://local:8080/v1"]
        [some [RawModel.mk "gpt-4", RawModel.mk "whisper-1"], some [RawModel.mk "llama-3"]],
       strContains ((["https://api.openai.com/v1", "http://local:8080/v1"] :
           List String)[e.urlIdx]?.getD "") "api.openai.com" = true →
       strContains e.id "gpt" = true) :=
  ⟨by decide, merge_filter_matches_spec _ _ (by decide)⟩

/-- Claim C3: when the fetch outcome at position `k` is `None` (a failed
backend), the merge neither raises (it returns `.ok`) nor differs from the
merge in which backend `k` contributes zero entries. -/
theorem merge_tolerates_failed_backend (base_urls : List String)
    (model_lists : List (Option (List RawModel))) (k : Nat)
    (h : model_lists.length ≤ base_urls.length)
    (hk : model_lists[k]? = some none) :
    merge_models_lists base_urls model_lists =
      merge_models_lists base_urls (model_lists.set k (some [])) ∧
    merge_models_lists base_urls model_lists = .ok (mergeModelsSpec base_urls model_lists) :=
  ⟨mergeAux_set_empty base_urls model_lists 0 k hk,
   mergeAux_eq_spec base_urls model_lists 0 (by omega)⟩

theorem merge_tolerates_failed_backend_witness :
    (([some [RawModel.mk "gpt-4"], none] : List (Option (List RawModel))).length ≤
      (["https://api.openai.com/v1", "http://local:8080/v1"] : List String).length) ∧
    (([some [RawModel.mk "gpt-4"], none] : List (Option (List RawModel)))[1]? = some none) ∧
    (merge_models_lists ["https://api.openai.com/v1", "http://local:8080/v1"]
        [some [RawModel.mk "gpt-4"], none] =
      merge_models_lists ["https://api.openai.com/v1", "http://local:8080/v1"]
        (([some [RawModel.mk "gpt-4"], none] : List (Option (List RawModel))).set 1 (some [])) ∧
     merge_models_lists ["https://api.openai.com/v1", "http://local:8080/v1"]
        [some [RawModel.mk "gpt-4"], none] =
      .ok (mergeModelsSpec ["https://api.openai.com/v1", "http://local:8080/v1"]
        [some [RawModel.mk "gpt-4"], none])) :=
  ⟨by decide, by decide, merge_tolerates_failed_backend _ _ 1 (by decide) (by decide)⟩

/-- Claim C2: in non-assistant mode, a valid-JSON body naming a catalog model
owned by backend `j` (with a non-empty credential there) is forwarded, after
the body fixups, to backend `j`'s base URL joined with the request path and
with backend `j`'s key as a bearer `Authorization` header. -/
theorem proxy_routes_to_owning_backend (st : AppState) (path : String)
    (json_loads : String → Option JsonObj) (body : String) (parsed : JsonObj)
    (m : String) (t : TaggedModel) (u k : String)
    (hp : json_loads body = some parsed)
    (hm : objGet parsed "model" = some (Json.str m))
    (ht : modelsCatalogGet st.MODELS m = some t)
    (hu : st.OPENAI_API_BASE_URLS[t.urlIdx]? = some u)
    (hk : st.OPENAI_API_KEYS[t.urlIdx]? = some k)
    (hke : k ≠ "") :
    proxy "" st path json_loads body =
      .ok ⟨u ++ "/" ++ path, "Bearer " ++ k, .jsonBody (Json.obj (fixupBody parsed))⟩ := by
  simp [proxy, modelsGet, hp, hm, ht, hu, hk, hke]

theorem proxy_routes_to_owning_backend_witness :
    ((fun _ : String => some [("model", Json.str "llama-3")]) "b" =
        some [("model", Json.str "llama-3")]) ∧
    (objGet [("model", Json.str "llama-3")] "model" = some (Json.str "llama-3")) ∧
    (modelsCatalogGet (AppState.mk ["https://api.openai.com/v1", "http://local:8080/v1"]
        ["k1", "k2"] [TaggedModel.mk "llama-3" 1]).MODELS "llama-3" =
      some (TaggedModel.mk "llama-3" 1)) ∧
    (proxy "" (AppState.mk ["https://api.openai.com/v1", "http://local:8080/v1"]
        ["k1", "k2"] [TaggedModel.mk "llama-3" 1]) "chat/completions"
        (fun _ => some [("model", Json.str "llama-3")]) "b" =
      .ok ⟨"http://local:8080/v1" ++ "/" ++ "chat/completions", "Bearer " ++ "k2",
        .jsonBody (Json.obj (fixupBody [("model", Json.str "llama-3")]))⟩) :=
  ⟨rfl, rfl, rfl,
   proxy_routes_to_owning_backend _ _ _ _ _ "llama-3" (TaggedModel.mk "llama-3" 1) _ _
     rfl rfl rfl rfl rfl (by decide)⟩

/-- Claim C8: in non-assistant mode a body naming a model id absent from the
cached catalog raises `KeyError` (so nothing is forwarded to any backend);
with the same body in assistant mode, backend 0 is used as the default
target. -/
theorem proxy_unknown_model_raises (st : AppState) (path : String)
    (json_loads : String → Option JsonObj) (body : String) (parsed : JsonObj) (m : String)
    (hp : json_loads body = some parsed)
    (hm : objGet parsed "model" = some (Json.str m))
    (habs : modelsCatalogGet st.MODELS m = none) :
    proxy "" st path json_loads body = .error .keyError ∧
    ∀ aid u k, aid ≠ "" → st.OPENAI_API_BASE_URLS[0]? = some u →
      st.OPENAI_API_KEYS[0]? = some k → k ≠ "" →
      proxy aid st path json_loads body =
        .ok ⟨u ++ "/" ++ path, "Bearer " ++ k,
          .jsonBody (Json.obj (stripAssistantKeys parsed))⟩ := by
  constructor
  · simp [proxy, modelsGet, hp, hm, habs]
  · intro aid u k haid hu hk hke
    simp [proxy, hp, haid, hu, hk, hke]

theorem proxy_unknown_model_raises_witness :
    ((fun _ : String => some [("model", Json.str "nope")]) "b" =
        some [("model", Json.str "nope")]) ∧
    (objGet [("model", Json.str "nope")] "model" = some (Json.str "nope")) ∧
    (modelsCatalogGet (AppState.mk ["a"] ["k1"] [TaggedModel.mk "m" 0]).MODELS "nope" = none) ∧
    (proxy "" (AppState.mk ["a"] ["k1"] [TaggedModel.mk "m" 0]) "x"
        (fun _ => some [("model", Json.str "nope")]) "b" = .error .keyError ∧
     ∀ aid u k, aid ≠ "" →
       (AppState.mk ["a"] ["k1"] [TaggedModel.mk "m" 0]).OPENAI_API_BASE_URLS[0]? = some u →
       (AppState.mk ["a"] ["k1"] [TaggedModel.mk "m" 0]).OPENAI_API_KEYS[0]? = some k → k ≠ "" →
       proxy aid (AppState.mk ["a"] ["k1"] [TaggedModel.mk "m" 0]) "x"
           (fun _ => some [("model", Json.str "nope")]) "b" =
         .ok ⟨u ++ "/" ++ "x", "Bearer " ++ k,
           .jsonBody (Json.obj (stripAssistantKeys [("model", Json.str "nope")]))⟩) :=
  ⟨rfl, rfl, rfl, proxy_unknown_model_raises _ _ _ _ _ "nope" rfl rfl rfl⟩

/-- Claim C9: in non-assistant mode a body that fails JSON parsing is not
fatal: the request proceeds with the unmodified body and is forwarded to
backend 0 with backend 0's credential (model resolution being skipped, the
default index 0 is used). -/
theorem proxy_lenient_on_parse_failure (st : AppState) (path : String)
    (json_loads : String → Option JsonObj) (body : String) (u k : String)
    (hp : json_loads body = none)
    (hu : st.OPENAI_API_BASE_URLS[0]? = some u)
    (hk : st.OPENAI_API_KEYS[0]? = some k)
    (hke : k ≠ "") :
    proxy "" st path json_loads body = .ok ⟨u ++ "/" ++ path, "Bearer " ++ k, .raw body⟩ := by
  simp [proxy, hp, hu, hk, hke]

theorem proxy_lenient_on_parse_failure_witness :
    ((fun _ : String => (none : Option JsonObj)) "notjson" = none) ∧
    ((AppState.mk ["a", "b"] ["k1", "k2"] []).OPENAI_API_BASE_URLS[0]? = some "a") ∧
    ((AppState.mk ["a", "b"] ["k1", "k2"] []).OPENAI_API_KEYS[0]? = some "k1") ∧
    (proxy "" (AppState.mk ["a", "b"] ["k1", "k2"] []) "x" (fun _ => none) "notjson" =
      .ok ⟨"a" ++ "/" ++ "x", "Bearer " ++ "k1", .raw "notjson"⟩) :=
  ⟨rfl, rfl, rfl,
   proxy_lenient_on_parse_failure _ _ _ _ _ _ rfl rfl rfl (by decide)⟩

/-- Claim C4 (code behavior at the failing input): with the key registry
exactly `[""]`, `get_all_models` performs no network calls, leaves the state
untouched — and returns `None` rather than the `{"data": []}` dict it
assigns, because the `return` statement sits inside the `else` branch. -/
theorem get_all_models_empty_key_returns_none (st : AppState)
    (fetch : FetchCall → Option FetchResult)
    (h : st.OPENAI_API_KEYS = [""]) :
    get_all_models st fetch = .ok (st, none, []) := by
  simp [get_all_models, h]

theorem get_all_models_empty_key_returns_none_witness :
    ((AppState.mk ["u"] [""] []).OPENAI_API_KEYS = [""]) ∧
    (get_all_models (AppState.mk ["u"] [""] []) (fun _ => none) =
      .ok (AppState.mk ["u"] [""] [], none, [])) :=
  ⟨rfl, get_all_models_empty_key_returns_none _ _ rfl⟩

/-- Claim C6: the keys-update handler replaces only the key list: it issues
no fetch, leaves the base-URL registry and the cached catalog unchanged, and
afterwards the key registry equals the submitted list. -/
theorem keys_update_frame (st : AppState) (keys : List String) :
    (update_openai_key st keys).2 = [] ∧
    (update_openai_key st keys).1.OPENAI_API_BASE_URLS = st.OPENAI_API_BASE_URLS ∧
    (update_openai_key st keys).1.MODELS = st.MODELS ∧
    (update_openai_key st keys).1.OPENAI_API_KEYS = keys :=
  ⟨rfl, rfl, rfl, rfl⟩

/-- Claim C5 refuted at a concrete input: updating the URL registry from
`["http://old"]` to `["http://new"]` refreshes against the pre-swap URL
`http://old/models`, not against the submitted URL — the claim that the
refresh uses the pre-swap keys against the *new* urls is false. -/
theorem urls_update_refresh_targets_old_urls :
    update_openai_urls (AppState.mk ["http://old"] ["k"] []) (fun _ => none) ["http://new"] =
      .ok (AppState.mk ["http://new"] ["k"] [], [FetchCall.mk "http://old/models" "k"]) ∧
    (FetchCall.mk "http://old/models" "k").url ≠ "http://new" ++ "/models" :=
  ⟨rfl, by decide⟩

theorem buildCallsAux_mem (keys : List String) :
    ∀ (urls : List String) (idx : Nat) (calls : List FetchCall),
      buildCallsAux keys idx urls = .ok calls →
      ∀ c ∈ calls, ∃ (j : Nat) (u k : String), urls[j]? = some u ∧
        keys[idx + j]? = some k ∧ c = ⟨u ++ "/models", k⟩
  | [], _, calls, h, c, hc => by
    simp [buildCallsAux] at h
    subst h
    simp at hc
  | url :: rest, idx, calls, h, c, hc => by
    rw [buildCallsAux] at h
    rcases hk : keys[idx]? with _ | k0
    · rw [hk] at h; exact absurd h (by simp)
    · rw [hk] at h
      rcases htail : buildCallsAux keys (idx + 1) rest with e | tail
      · rw [htail] at h; exact absurd h (by simp)
      · rw [htail] at h
        simp only [Except.ok.injEq] at h
        subst h
        rcases List.mem_cons.mp hc with rfl | hmem
        · exact ⟨0, url, k0, by simp, by simpa using hk, rfl⟩
        · obtain ⟨j, u, k, h1, h2, h3⟩ := buildCallsAux_mem keys rest (idx + 1) tail htail c hmem
          exact ⟨j + 1, u, k, by simpa using h1,
            by rw [show idx + (j + 1) = idx + 1 + j by omega]; exact h2, h3⟩

theorem get_all_models_effects (st : AppState) (fetch : FetchCall → Option FetchResult)
    (st1 : AppState) (ret : Option ModelsResp) (calls : List FetchCall)
    (h : get_all_models st fetch = .ok (st1, ret, calls)) :
    st1.OPENAI_API_BASE_URLS = st.OPENAI_API_BASE_URLS ∧
    st1.OPENAI_API_KEYS = st.OPENAI_API_KEYS ∧
    (calls = [] ∨ buildCalls st.OPENAI_API_BASE_URLS st.OPENAI_API_KEYS = .ok calls) := by
  rw [get_all_models] at h
  split at h
  · simp only [Except.ok.injEq, Prod.mk.injEq] at h
    obtain ⟨h1, _, h3⟩ := h
    subst h1; subst h3
    exact ⟨rfl, rfl, Or.inl rfl⟩
  · split at h
    · exact absurd h (by simp)
    · split at h
      · exact absurd h (by simp)
      · simp only [Except.ok.injEq, Prod.mk.injEq] at h
        obtain ⟨h1, _, h3⟩ := h
        subst h1; subst h3
        exact ⟨rfl, rfl, Or.inr (by assumption)⟩

/-- Claim C5 as amended: the urls-update handler refreshes the catalog before
the swap, the refresh fetches target the pre-swap urls with the pre-swap keys
(index-aligned), and after the handler the base-URL registry equals the
submitted list (the key registry is untouched). -/
theorem urls_update_refresh_pre_swap (st : AppState)
    (fetch : FetchCall → Option FetchResult) (urls : List String)
    (st1 : AppState) (calls : List FetchCall)
    (h : update_openai_urls st fetch urls = .ok (st1, calls)) :
    st1.OPENAI_API_BASE_URLS = urls ∧
    st1.OPENAI_API_KEYS = st.OPENAI_API_KEYS ∧
    ∀ c ∈ calls, ∃ (i : Nat) (u k : String), st.OPENAI_API_BASE_URLS[i]? = some u ∧
      st.OPENAI_API_KEYS[i]? = some k ∧ c.url = u ++ "/models" ∧ c.key = k := by
  rw [update_openai_urls] at h
  rcases hg : get_all_models st fetch with e | ⟨st2, ret, calls2⟩
  · rw [hg] at h; exact absurd h (by simp)
  · rw [hg] at h
    simp only [Except.ok.injEq, Prod.mk.injEq] at h
    obtain ⟨h1, h2⟩ := h
    subst h1; subst h2
    obtain ⟨_, hkeys, hcalls⟩ := get_all_models_effects st fetch st2 ret calls2 hg
    refine ⟨rfl, hkeys, ?_⟩
    intro c hc
    rcases hcalls with rfl | hb
    · simp at hc
    · obtain ⟨j, u, k, h1, h2, h3⟩ :=
        buildCallsAux_mem st.OPENAI_API_KEYS st.OPENAI_API_BASE_URLS 0 calls2 hb c hc
      exact ⟨j, u, k, h1, by simpa using h2, by rw [h3], by rw [h3]⟩

theorem urls_update_refresh_pre_swap_witness :
    (update_openai_urls (AppState.mk ["http://old"] ["k"] []) (fun _ => none) ["http://new"] =
      .ok (AppState.mk ["http://new"] ["k"] [], [FetchCall.mk "http://old/models" "k"])) ∧
    ((AppState.mk ["http://new"] ["k"] []).OPENAI_API_BASE_URLS = ["http://new"] ∧
     (AppState.mk ["http://new"] ["k"] []).OPENAI_API_KEYS =
       (AppState.mk ["http://old"] ["k"] []).OPENAI_API_KEYS ∧
     ∀ c ∈ [FetchCall.mk "http://old/models" "k"], ∃ (i : Nat) (u k : String),
       (AppState.mk ["http://old"] ["k"] []).OPENAI_API_BASE_URLS[i]? = some u ∧
       (AppState.mk ["http://old"] ["k"] []).OPENAI_API_KEYS[i]? = some k ∧
       c.url = u ++ "/models" ∧ c.key = k) :=
  ⟨rfl, urls_update_refresh_pre_swap _ (fun _ => none) _ _ _ rfl⟩

theorem lookupFile_writeFile {α : Type} (files : List (String × α)) (k : String) (v : α) :
    lookupFile (writeFile files k v) k = some v := by
  rw [lookupFile, writeFile]
  have hnone : (files.filter (fun p => p.1 != k)).find? (fun p => p.1 == k) = none := by
    rw [List.find?_eq_none]
    intro p hp
    have := List.of_mem_filter hp
    simpa using this
  rw [List.find?_append, hnone]
  simp

theorem pyIndex_invalid (l : List String) (i : Int)
    (h : i < -(l.length : Int) ∨ (l.length : Int) ≤ i) :
    pyIndex l i = .error .indexError := by
  rw [pyIndex]
  rcases h with h | h
  · have h0 : i < 0 := by omega
    simp only [if_pos h0]
    have : ¬ (0 ≤ (l.length : Int) + i) := by omega
    simp [this]
  · have h0 : ¬ i < 0 := by omega
    simp only [if_neg h0]
    have h1 : (0 : Int) ≤ i := by omega
    have h2 : l.length ≤ i.toNat := by omega
    simp [h1, List.getElem?_eq_none h2]

/-- Claim C10: an indexed listing request whose index is invalid for the
base-URL registry (negative beyond the length, or at least the length) raises
an uncaught `IndexError` before any network request is issued, for both
`GET /models/{url_idx}` and `GET /assistants/{url_idx}`. -/
theorem indexed_listing_unchecked_index (st : AppState) (i : Int)
    (g1 : String → Option BackendModelsResp) (g2 : String → Option Json)
    (h : i < -((st.OPENAI_API_BASE_URLS.length : Int)) ∨
      (st.OPENAI_API_BASE_URLS.length : Int) ≤ i) :
    get_models_indexed st i g1 = (.error .indexError, []) ∧
    get_assistants_indexed st i g2 = (.error .indexError, []) := by
  rw [get_models_indexed, get_assistants_indexed, pyIndex_invalid _ _ h]
  exact ⟨rfl, rfl⟩

theorem indexed_listing_unchecked_index_witness :
    (((5 : Int) < -(((AppState.mk ["a"] ["k"] []).OPENAI_API_BASE_URLS.length : Int)) ∨
      (((AppState.mk ["a"] ["k"] []).OPENAI_API_BASE_URLS.length : Int) ≤ 5)) ∧
    (get_models_indexed (AppState.mk ["a"] ["k"] []) 5 (fun _ => none) =
        (.error .indexError, []) ∧
     get_assistants_indexed (AppState.mk ["a"] ["k"] []) 5 (fun _ => none) =
        (.error .indexError, []))) :=
  ⟨by decide, indexed_listing_unchecked_index _ 5 (fun _ => none) (fun _ => none) (by decide)⟩

/-- Claim C7: with the public backend registered, a cache miss for
`sha256(body)` and a successful synthesis, calling `speech` twice with the
same body issues exactly one upstream call in total, returns the same audio
bytes both times, and the second call leaves the cache unchanged. -/
theorem speech_cache_idempotent (st : AppState) (fs : FS) (sha256 : String → String)
    (json_loads : String → Option JsonObj) (upstream : String → String → Option (List Nat))
    (body : String) (idx : Nat) (audio : List Nat) (parsed : JsonObj)
    (hidx : st.OPENAI_API_BASE_URLS.findIdx? (fun u => u == "https://api.openai.com/v1") =
      some idx)
    (hkey : idx < st.OPENAI_API_KEYS.length)
    (hmiss : lookupFile fs.mp3 (sha256 body) = none)
    (hup : upstream (st.OPENAI_API_BASE_URLS.getD idx "" ++ "/audio/speech") body = some audio)
    (hjson : json_loads body = some parsed) :
    (speech st fs sha256 json_loads upstream body).1 = .ok audio ∧
    (speech st fs sha256 json_loads upstream body).2.2 = 1 ∧
    (speech st (speech st fs sha256 json_loads upstream body).2.1
        sha256 json_loads upstream body).1 = .ok audio ∧
    (speech st (speech st fs sha256 json_loads upstream body).2.1
        sha256 json_loads upstream body).2.2 = 0 ∧
    (speech st (speech st fs sha256 json_loads upstream body).2.1
        sha256 json_loads upstream body).2.1 =
      (speech st fs sha256 json_loads upstream body).2.1 := by
  have hk : st.OPENAI_API_KEYS[idx]? = some st.OPENAI_API_KEYS[idx] :=
    List.getElem?_eq_getElem hkey
  have h1 : speech st fs sha256 json_loads upstream body =
      (.ok audio,
        ⟨writeFile fs.mp3 (sha256 body) audio, writeFile fs.jsonFiles (sha256 body) parsed⟩,
        1) := by
    rw [speech, hidx]
    simp only [hmiss, hk, hup, hjson]
  have h2 : speech st
      (⟨writeFile fs.mp3 (sha256 body) audio, writeFile fs.jsonFiles (sha256 body) parsed⟩ : FS)
      sha256 json_loads upstream body =
      (.ok audio,
        ⟨writeFile fs.mp3 (sha256 body) audio, writeFile fs.jsonFiles (sha256 body) parsed⟩,
        0) := by
    rw [speech, hidx]
    simp only [lookupFile_writeFile]
  rw [h1]
  simp [h2]

theorem speech_cache_idempotent_witness :
    ((AppState.mk ["https://api.openai.com/v1"] ["k"] []).OPENAI_API_BASE_URLS.findIdx?
        (fun u => u == "https://api.openai.com/v1") = some 0) ∧
    (0 < (AppState.mk ["https://api.openai.com/v1"] ["k"] []).OPENAI_API_KEYS.length) ∧
    (lookupFile (FS.mk [] []).mp3 ((fun s => s) "b") = none) ∧
    ((fun _ _ => some [1, 2] : String → String → Option (List Nat))
        ((AppState.mk ["https://api.openai.com/v1"] ["k"] []).OPENAI_API_BASE_URLS.getD 0 "" ++
          "/audio/speech") "b" = some [1, 2]) ∧
    ((fun _ => some [] : String → Option JsonObj) "b" = some []) ∧
    ((speech (AppState.mk ["https://api.openai.com/v1"] ["k"] []) (FS.mk [] []) (fun s => s)
        (fun _ => some []) (fun _ _ => some [1, 2]) "b").1 = .ok [1, 2] ∧
     (speech (AppState.mk ["https://api.openai.com/v1"] ["k"] []) (FS.mk [] []) (fun s => s)
        (fun _ => some []) (fun _ _ => some [1, 2]) "b").2.2 = 1 ∧
     (speech (AppState.mk ["https://api.openai.com/v1"] ["k"] [])
        (speech (AppState.mk ["https://api.openai.com/v1"] ["k"] []) (FS.mk [] []) (fun s => s)
          (fun _ => some []) (fun _ _ => some [1, 2]) "b").2.1 (fun s => s)
        (fun _ => some []) (fun _ _ => some [1, 2]) "b").1 = .ok [1, 2] ∧
     (speech (AppState.mk ["https://api.openai.com/v1"] ["k"] [])
        (speech (AppState.mk ["https://api.openai.com/v1"] ["k"] []) (FS.mk [] []) (fun s => s)
          (fun _ => some []) (fun _ _ => some [1, 2]) "b").2.1 (fun s => s)
        (fun _ => some []) (fun _ _ => some [1, 2]) "b").2.2 = 0 ∧
     (speech (AppState.mk ["https://api.openai.com/v1"] ["k"] [])
        (speech (AppState.mk ["https://api.openai.com/v1"] ["k"] []) (FS.mk [] []) (fun s => s)
          (fun _ => some []) (fun _ _ => some [1, 2]) "b").2.1 (fun s => s)
        (fun _ => some []) (fun _ _ => some [1, 2]) "b").2.1 =
       (speech (AppState.mk ["https://api.openai.com/v1"] ["k"] []) (FS.mk [] []) (fun s => s)
          (fun _ => some []) (fun _ _ => some [1, 2]) "b").2.1) :=
  ⟨rfl, by decide, rfl, rfl, rfl,
   speech_cache_idempotent _ _ (fun s => s) (fun _ => some []) (fun _ _ => some [1, 2]) "b"
     0 [1, 2] [] rfl (by decide) rfl rfl rfl⟩
